import Mathlib

/-!  Verification of the GPA calculator (`script.js`).

The program's numbers are modelled as exact rationals (`ℚ`).  JavaScript's
`NaN` is modelled as `none` in `Option ℚ`, and the arithmetic helpers
(`jadd`, `jsub`, `jmul`, `jdivq`) propagate it the way `NaN` propagates.
A raw input-field value is a `Val`: the empty string, a non-empty string
that does not parse as a number, or a string parsing to a rational.

The function `calculate` below embeds the `calculate()` function of
`script.js` (lines 356-463): the per-row `forEach` body becomes the fold
step `step` over an explicit accumulator state `CalcState`, and the four
ways the function can end (the two baseline early returns, the
`hasErrors` return, the `hasValidCourses` return, and the display of the
three numbers) become the constructors of `Outcome`. -/

inductive Val where
  | empty : Val
  | nan : Val
  | num : ℚ → Val
deriving DecidableEq

namespace Val

/-- JavaScript truthiness of the raw field string: only the empty string is falsy. -/
def truthy : Val → Bool
  | .empty => false
  | _ => true

/-- Embeds `parseFloat`: the empty string and non-numeric strings give `NaN` (`none`). -/
def parseFloat : Val → Option ℚ
  | .num q => some q
  | _ => none

/-- Numeric value carried by the field, defaulting to 0; used only in sum formulas. -/
def qval : Val → ℚ
  | .num q => q
  | _ => 0

/-- Whether the field holds a numeric string. -/
def isNum : Val → Bool
  | .num _ => true
  | _ => false

end Val

/-- Embeds `parseFloat(x) || 0` (line 358-359): `NaN` becomes 0, and 0 stays 0. -/
def parseOr0 (v : Val) : ℚ := v.parseFloat.getD 0

/-- JavaScript addition with `NaN` propagation. -/
def jadd : Option ℚ → Option ℚ → Option ℚ
  | some a, some b => some (a + b)
  | _, _ => none

/-- JavaScript subtraction with `NaN` propagation. -/
def jsub : Option ℚ → Option ℚ → Option ℚ
  | some a, some b => some (a - b)
  | _, _ => none

/-- JavaScript multiplication with `NaN` propagation. -/
def jmul : Option ℚ → Option ℚ → Option ℚ
  | some a, some b => some (a * b)
  | _, _ => none

/-- JavaScript division by a number known not to be `NaN`, with `NaN` propagation
from the numerator (in `calculate` every division has a positive denominator). -/
def jdivq (a : Option ℚ) (b : ℚ) : Option ℚ := a.map (fun x => x / b)

/-- Embeds `GRADE_MAP` (script.js lines 15-28), a hardcoded top-level constant. -/
def GRADE_MAP : List (String × ℚ) :=
  [("A+", 4), ("A", 4), ("A-", 367/100), ("B+", 333/100), ("B", 3),
   ("B-", 267/100), ("C+", 233/100), ("C", 2), ("C-", 167/100),
   ("D+", 133/100), ("D", 1), ("F", 0)]

/-- The quality-point values occurring in `GRADE_MAP`; these are exactly the
values a grade `<select>` option can carry (`getGradeOptions`, lines 137-141). -/
def gradeValues : List ℚ := GRADE_MAP.map Prod.snd

/-- One table row as read by `calculate`: the credits input `.cr`, the grade
select `.gr`, the repeat checkbox `.rp`, and the previous-grade select `.old`. -/
structure Row where
  cr : Val
  gr : Val
  rp : Bool
  old : Val
deriving DecidableEq

/-- The mutable locals of `calculate` (script.js lines 373-378). -/
structure CalcState where
  overallQualityPoints : Option ℚ
  overallCredits : ℚ
  semesterQualityPoints : Option ℚ
  semesterCredits : ℚ
  hasErrors : Bool
  hasValidCourses : Bool
deriving DecidableEq

/-- Embeds the body of the `rows.forEach` loop of `calculate`
(script.js lines 382-427); an early `return` of the callback is a
continue, i.e. it yields the state reached so far. -/
def step (s : CalcState) (r : Row) : CalcState :=
  if !r.cr.truthy && !r.gr.truthy then s
  else if !r.cr.truthy || !r.gr.truthy then { s with hasErrors := true }
  else
    match r.cr.parseFloat with
    | none => { s with hasErrors := true }
    | some credits =>
      if credits ≤ 0 ∨ 4 < credits then { s with hasErrors := true }
      else
        let grade := r.gr.parseFloat
        let newSemQP := jadd s.semesterQualityPoints (jmul (some credits) grade)
        let s1 : CalcState :=
          { s with hasValidCourses := true, semesterQualityPoints := newSemQP,
                   semesterCredits := s.semesterCredits + credits }
        if r.rp then
          if !r.old.truthy then { s1 with hasErrors := true }
          else
            let adjusted :=
              jadd (jsub s1.overallQualityPoints (jmul (some credits) r.old.parseFloat))
                (jmul (some credits) grade)
            { s1 with overallQualityPoints := adjusted }
        else
          let newOvQP := jadd s1.overallQualityPoints (jmul (some credits) grade)
          { s1 with overallQualityPoints := newOvQP,
                    overallCredits := s1.overallCredits + credits }

/-- The possible endings of `calculate`. -/
inductive Outcome where
  | invalidBaseline : Outcome
  | errors : Outcome
  | noValidCourses : Outcome
  | ok : Option ℚ → Option ℚ → ℚ → Outcome
deriving DecidableEq

/-- Initial accumulator state (script.js lines 373-378). -/
def initState (qp cr : ℚ) : CalcState := ⟨some qp, cr, some 0, 0, false, false⟩

/-- Embeds `calculate()` (script.js lines 356-463).  The two baseline early
returns become `.invalidBaseline`, the `hasErrors` return `.errors`, the
`hasValidCourses` return `.noValidCourses`, and otherwise the displayed
`semesterGPA`, `cumulativeGPA` and `totalCredits` are returned in `.ok`. -/
def calculate (gpaV crV : Val) (rows : List Row) : Outcome :=
  let currentGPA := parseOr0 gpaV
  let currentCredits := parseOr0 crV
  if 4 < currentGPA ∨ currentGPA < 0 then .invalidBaseline
  else if currentCredits < 0 then .invalidBaseline
  else
    let s := rows.foldl step (initState (currentGPA * currentCredits) currentCredits)
    if s.hasErrors then .errors
    else if s.hasValidCourses = false then .noValidCourses
    else .ok (jdivq s.semesterQualityPoints s.semesterCredits)
             (if 0 < s.overallCredits then
                jdivq s.overallQualityPoints s.overallCredits
              else some 0)
             s.overallCredits

/-- The cumulative GPA reported by an outcome: `none` when no numeric result
is displayed at all, `some none` when `NaN` is displayed. -/
def Outcome.cgpa : Outcome → Option (Option ℚ)
  | .ok _ c _ => some c
  | _ => none

/-- A row both of whose credit and grade fields are empty (skipped, line 392). -/
def skippedRow (r : Row) : Bool := !r.cr.truthy && !r.gr.truthy

/-- A credits field that passes the check of line 402 (numeric, positive, at most 4). -/
def validCreditsVal : Val → Bool
  | .num c => decide (0 < c ∧ c ≤ 4)
  | _ => false

/-- A grade field holding one of the `GRADE_MAP` quality-point values. -/
def knownGradeVal : Val → Bool
  | .num g => decide (g ∈ gradeValues)
  | _ => false

/-- A row that is either skipped or passes every check of the loop body with
numeric fields (no `NaN` enters the sums). -/
def goodRow (r : Row) : Bool :=
  skippedRow r || (validCreditsVal r.cr && r.gr.isNum && (!r.rp || r.old.isNum))

/-- A fully valid non-repeat row: valid credits, a grade from the scale, not a repeat. -/
def validNonRepeatRow (r : Row) : Bool :=
  validCreditsVal r.cr && knownGradeVal r.gr && !r.rp

/-- A row on which the loop body sets `hasErrors` (lines 395-399, 402-406, 415-419). -/
def faultedRow (r : Row) : Bool :=
  if skippedRow r then false
  else if !r.cr.truthy || !r.gr.truthy then true
  else
    match r.cr.parseFloat with
    | none => true
    | some c => if c ≤ 0 ∨ 4 < c then true else r.rp && !r.old.truthy

/-- Contribution of a row to `semesterQualityPoints` (meaningful on good rows). -/
def rowSemQP (r : Row) : ℚ := if skippedRow r then 0 else r.cr.qval * r.gr.qval

/-- Contribution of a row to `semesterCredits` (meaningful on good rows). -/
def rowSemCr (r : Row) : ℚ := if skippedRow r then 0 else r.cr.qval

/-- Contribution of a row to `overallQualityPoints` (meaningful on good rows). -/
def rowOvQP (r : Row) : ℚ :=
  if skippedRow r then 0
  else if r.rp then r.cr.qval * r.gr.qval - r.cr.qval * r.old.qval
  else r.cr.qval * r.gr.qval

/-- Contribution of a row to `overallCredits` (meaningful on good rows): a
repeated course's credits are not added. -/
def rowOvCr (r : Row) : ℚ := if skippedRow r || r.rp then 0 else r.cr.qval

lemma jadd_some (a b : ℚ) : jadd (some a) (some b) = some (a + b) := rfl

lemma jsub_some (a b : ℚ) : jsub (some a) (some b) = some (a - b) := rfl

lemma jmul_some (a b : ℚ) : jmul (some a) (some b) = some (a * b) := rfl

lemma skippedRow_iff (r : Row) :
    skippedRow r = true ↔ (r.cr = Val.empty ∧ r.gr = Val.empty) := by
  obtain ⟨cr, gr, rp, old⟩ := r
  cases cr <;> cases gr <;> simp [skippedRow, Val.truthy]

lemma step_skipped (s : CalcState) (r : Row) (h : skippedRow r = true) :
    step s r = s := by
  have h' : (!r.cr.truthy && !r.gr.truthy) = true := h
  simp [step, h']

lemma step_good (s : CalcState) (r : Row) (oq sq : ℚ)
    (hoq : s.overallQualityPoints = some oq)
    (hsq : s.semesterQualityPoints = some sq)
    (hg : goodRow r = true) :
    step s r =
      { overallQualityPoints := some (oq + rowOvQP r),
        overallCredits := s.overallCredits + rowOvCr r,
        semesterQualityPoints := some (sq + rowSemQP r),
        semesterCredits := s.semesterCredits + rowSemCr r,
        hasErrors := s.hasErrors,
        hasValidCourses := (s.hasValidCourses || !skippedRow r) } := by
  obtain ⟨cr, gr, rp, old⟩ := r
  by_cases hsk : skippedRow ⟨cr, gr, rp, old⟩ = true
  · rw [step_skipped _ _ hsk]
    obtain ⟨ovq, ovc, sq2, sc2, he, hv⟩ := s
    simp only [CalcState.mk.injEq] at hoq hsq ⊢
    subst hoq hsq
    simp [rowOvQP, rowOvCr, rowSemQP, rowSemCr, hsk]
  · simp only [goodRow] at hg
    have hsk' : skippedRow ⟨cr, gr, rp, old⟩ = false := by
      simpa using hsk
    rw [hsk'] at hg
    simp only [Bool.false_or, Bool.and_eq_true] at hg
    obtain ⟨⟨hcr, hgr⟩, hold⟩ := hg
    obtain ⟨c, rfl⟩ : ∃ c, cr = Val.num c := by
      cases cr <;> simp_all [validCreditsVal]
    obtain ⟨g, rfl⟩ : ∃ g, gr = Val.num g := by
      cases gr <;> simp_all [Val.isNum]
    have hc : 0 < c ∧ c ≤ 4 := by simpa [validCreditsVal] using hcr
    obtain ⟨ovq, ovc, sq2, sc2, he, hv⟩ := s
    simp only [CalcState.mk.injEq] at hoq hsq
    subst hoq hsq
    cases rp with
    | false =>
      simp [step, Val.truthy, Val.parseFloat, hc.1.not_le, not_lt.mpr hc.2,
        jadd, jsub, jmul, rowOvQP, rowOvCr, rowSemQP, rowSemCr, skippedRow,
        Val.qval]
    | true =>
      obtain ⟨og, rfl⟩ : ∃ og, old = Val.num og := by
        cases old <;> simp_all [Val.isNum]
      simp [step, Val.truthy, Val.parseFloat, hc.1.not_le, not_lt.mpr hc.2,
        jadd, jsub, jmul, rowOvQP, rowOvCr, rowSemQP, rowSemCr, skippedRow,
        Val.qval]
      ring

lemma foldl_good (rows : List Row) (s : CalcState) (oq sq : ℚ)
    (h : ∀ r ∈ rows, goodRow r = true)
    (hoq : s.overallQualityPoints = some oq)
    (hsq : s.semesterQualityPoints = some sq) :
    rows.foldl step s =
      { overallQualityPoints := some (oq + (rows.map rowOvQP).sum),
        overallCredits := s.overallCredits + (rows.map rowOvCr).sum,
        semesterQualityPoints := some (sq + (rows.map rowSemQP).sum),
        semesterCredits := s.semesterCredits + (rows.map rowSemCr).sum,
        hasErrors := s.hasErrors,
        hasValidCourses :=
          (s.hasValidCourses || rows.any fun r => !skippedRow r) } := by
  induction rows generalizing s oq sq with
  | nil =>
    obtain ⟨ovq, ovc, sq2, sc2, he, hv⟩ := s
    simp only [CalcState.mk.injEq] at hoq hsq
    subst hoq hsq
    simp
  | cons r rs ih =>
    have hr := h r (by simp)
    have hrs : ∀ x ∈ rs, goodRow x = true := fun x hx => h x (by simp [hx])
    rw [List.foldl_cons, step_good s r oq sq hoq hsq hr, ih _ _ _ hrs rfl rfl]
    simp [CalcState.mk.injEq, add_assoc, Bool.or_assoc]

lemma step_hasErrors (s : CalcState) (r : Row) :
    (step s r).hasErrors = (s.hasErrors || faultedRow r) := by
  obtain ⟨cr, gr, rp, old⟩ := r
  cases cr <;> cases gr <;> cases rp <;> cases old <;>
    simp [step, faultedRow, skippedRow, Val.truthy, Val.parseFloat] <;>
    split_ifs <;> simp_all

lemma foldl_hasErrors (rows : List Row) (s : CalcState) :
    (rows.foldl step s).hasErrors = (s.hasErrors || rows.any faultedRow) := by
  induction rows generalizing s with
  | nil => simp
  | cons r rs ih =>
    rw [List.foldl_cons, ih, step_hasErrors]
    simp [Bool.or_assoc]

lemma good_not_faulted (r : Row) (h : goodRow r = true) : faultedRow r = false := by
  obtain ⟨cr, gr, rp, old⟩ := r
  by_cases hsk : skippedRow ⟨cr, gr, rp, old⟩ = true
  · simp [faultedRow, hsk]
  · simp only [goodRow] at h
    have hsk' : skippedRow ⟨cr, gr, rp, old⟩ = false := by simpa using hsk
    rw [hsk'] at h
    simp only [Bool.false_or, Bool.and_eq_true] at h
    obtain ⟨⟨hcr, hgr⟩, hold⟩ := h
    obtain ⟨c, rfl⟩ : ∃ c, cr = Val.num c := by
      cases cr <;> simp_all [validCreditsVal]
    obtain ⟨g, rfl⟩ : ∃ g, gr = Val.num g := by
      cases gr <;> simp_all [Val.isNum]
    have hc : 0 < c ∧ c ≤ 4 := by simpa [validCreditsVal] using hcr
    cases rp with
    | false =>
      simp [faultedRow, skippedRow, Val.truthy, Val.parseFloat,
        hc.1.not_le, not_lt.mpr hc.2]
    | true =>
      obtain ⟨og, rfl⟩ : ∃ og, old = Val.num og := by
        cases old <;> simp_all [Val.isNum]
      simp [faultedRow, skippedRow, Val.truthy, Val.parseFloat,
        hc.1.not_le, not_lt.mpr hc.2]

lemma validNonRepeatRow_good (r : Row) (h : validNonRepeatRow r = true) :
    goodRow r = true := by
  obtain ⟨cr, gr, rp, old⟩ := r
  simp only [validNonRepeatRow, Bool.and_eq_true] at h
  obtain ⟨⟨hcr, hgr⟩, hrp⟩ := h
  have : gr.isNum = true := by cases gr <;> simp_all [knownGradeVal, Val.isNum]
  simp [goodRow, hcr, this, hrp]

lemma validNonRepeatRow_not_skipped (r : Row) (h : validNonRepeatRow r = true) :
    skippedRow r = false := by
  obtain ⟨cr, gr, rp, old⟩ := r
  simp only [validNonRepeatRow, Bool.and_eq_true] at h
  cases cr <;> simp_all [validCreditsVal, skippedRow, Val.truthy]

lemma validNonRepeatRow_contrib (r : Row) (h : validNonRepeatRow r = true) :
    rowOvQP r = rowSemQP r ∧ rowOvCr r = rowSemCr r := by
  have hsk := validNonRepeatRow_not_skipped r h
  simp only [validNonRepeatRow, Bool.and_eq_true] at h
  have hrp : r.rp = false := by simpa using h.2
  simp [rowOvQP, rowOvCr, rowSemQP, rowSemCr, hsk, hrp]

lemma validNonRepeatRow_semcr_pos (r : Row) (h : validNonRepeatRow r = true) :
    0 < rowSemCr r := by
  have hsk := validNonRepeatRow_not_skipped r h
  obtain ⟨cr, gr, rp, old⟩ := r
  simp only [validNonRepeatRow, Bool.and_eq_true] at h
  obtain ⟨⟨hcr, hgr⟩, hrp⟩ := h
  obtain ⟨c, rfl⟩ : ∃ c, cr = Val.num c := by
    cases cr <;> simp_all [validCreditsVal]
  have hc : 0 < c ∧ c ≤ 4 := by simpa [validCreditsVal] using hcr
  simpa [rowSemCr, hsk, Val.qval] using hc.1

/-- Claim C1: for every input whose entries are all valid, non-empty,
non-repeat entries (so at least one course is present and a result is
reached), with a valid baseline, `calculate` returns a cumulative GPA equal
to (priorGPA × priorCredits + Σ credits×gradePoints) / (priorCredits +
Σ credits), the sums ranging over the entries. -/
theorem C1_cumulative_gpa_formula (gpaV crV : Val) (rows : List Row)
    (hgpa0 : 0 ≤ parseOr0 gpaV) (hgpa4 : parseOr0 gpaV ≤ 4)
    (hcr0 : 0 ≤ parseOr0 crV)
    (hrows : ∀ r ∈ rows, validNonRepeatRow r = true)
    (hne : rows ≠ []) :
    calculate gpaV crV rows =
      Outcome.ok
        (some ((rows.map rowSemQP).sum / (rows.map rowSemCr).sum))
        (some ((parseOr0 gpaV * parseOr0 crV + (rows.map rowSemQP).sum) /
          (parseOr0 crV + (rows.map rowSemCr).sum)))
        (parseOr0 crV + (rows.map rowSemCr).sum) := by
  have hgood : ∀ r ∈ rows, goodRow r = true :=
    fun r hr => validNonRepeatRow_good r (hrows r hr)
  have hb1 : ¬(4 < parseOr0 gpaV ∨ parseOr0 gpaV < 0) := by
    push_neg
    exact ⟨hgpa4, hgpa0⟩
  have hb2 : ¬(parseOr0 crV < 0) := not_lt.mpr hcr0
  have hany : (rows.any fun r => !skippedRow r) = true := by
    obtain ⟨r, rs, rfl⟩ : ∃ r rs, rows = r :: rs := by
      cases rows with
      | nil => exact absurd rfl hne
      | cons a l => exact ⟨a, l, rfl⟩
    have := validNonRepeatRow_not_skipped r (hrows r (by simp))
    simp [List.any_cons, this]
  have hmap1 : rows.map rowOvQP = rows.map rowSemQP :=
    List.map_congr_left fun r hr => (validNonRepeatRow_contrib r (hrows r hr)).1
  have hmap2 : rows.map rowOvCr = rows.map rowSemCr :=
    List.map_congr_left fun r hr => (validNonRepeatRow_contrib r (hrows r hr)).2
  have hsum_pos : 0 < (rows.map rowSemCr).sum := by
    apply List.sum_pos
    · intro x hx
      obtain ⟨r, hr, rfl⟩ := List.mem_map.mp hx
      exact validNonRepeatRow_semcr_pos r (hrows r hr)
    · simpa using hne
  have hov_pos : 0 < parseOr0 crV + (rows.map rowSemCr).sum :=
    add_pos_of_nonneg_of_pos hcr0 hsum_pos
  simp only [calculate]
  rw [if_neg hb1, if_neg hb2,
    foldl_good rows _ (parseOr0 gpaV * parseOr0 crV) 0 hgood rfl rfl]
  simp [hmap1, hmap2, hany, hov_pos, jdivq, initState]

/-- Witness for C1 at a concrete input: baseline 3.0 over 30 credits and one
3-credit course at grade points 4.0 give cumulative GPA 102/33 = 34/11. -/
theorem C1_witness :
    calculate (.num 3) (.num 30) [⟨.num 3, .num 4, false, .empty⟩] =
      Outcome.ok (some 4) (some (34/11)) 33 := by
  have h := C1_cumulative_gpa_formula (.num 3) (.num 30)
      [⟨.num 3, .num 4, false, .empty⟩]
      (by norm_num [parseOr0, Val.parseFloat])
      (by norm_num [parseOr0, Val.parseFloat])
      (by norm_num [parseOr0, Val.parseFloat])
      (by
        intro r hr
        simp only [List.mem_singleton] at hr
        subst hr
        simp only [validNonRepeatRow, validCreditsVal, knownGradeVal]
        norm_num [gradeValues, GRADE_MAP])
      (by simp)
  rw [h]
  norm_num [rowSemQP, rowSemCr, skippedRow, Val.truthy, Val.qval, parseOr0,
    Val.parseFloat]

/-- Claim C2: a valid repeat entry (valid credits, grade and previous grade
from the scale) adds credits × (gradePoints(grade) − gradePoints(previousGrade))
to the overall quality points and nothing to `overallCredits`; consequently,
over any list of skipped-or-valid rows, `overallCredits` ends at its starting
value plus only the non-repeat entries' credits (`rowOvCr` is 0 on skipped and
on repeat rows). -/
theorem C2_repeat_adjustment (s : CalcState) (q sq c g og : ℚ) (rows : List Row)
    (hq : s.overallQualityPoints = some q)
    (hsq : s.semesterQualityPoints = some sq)
    (hc : 0 < c ∧ c ≤ 4) (hg : g ∈ gradeValues) (hog : og ∈ gradeValues)
    (hrows : ∀ r ∈ rows, goodRow r = true) :
    (step s ⟨.num c, .num g, true, .num og⟩).overallQualityPoints =
        some (q + c * (g - og)) ∧
    (step s ⟨.num c, .num g, true, .num og⟩).overallCredits =
        s.overallCredits ∧
    (rows.foldl step s).overallCredits =
        s.overallCredits + (rows.map rowOvCr).sum := by
  have hgood : goodRow ⟨.num c, .num g, true, .num og⟩ = true := by
    simp [goodRow, validCreditsVal, Val.isNum, hc]
  rw [step_good s _ q sq hq hsq hgood, foldl_good rows s q sq hrows hq hsq]
  refine ⟨?_, ?_, rfl⟩
  · simp only [rowOvQP, skippedRow, Val.truthy, Val.qval, Bool.not_true,
      Bool.false_and, if_false, if_true, Option.some.injEq]
    ring_nf
    simp [mul_sub]
  · simp [rowOvCr, skippedRow, Val.truthy]

/-- Witness for C2 at the spec's boundary example: baseline 3.0 over 30
credits, a repeat entry of 3 credits from grade points 2.0 to 4.0 moves the
overall quality points from 90 to 96 and leaves the overall credits at 30;
a valid non-repeat 3-credit row adds its 3 credits. -/
theorem C2_witness :
    (step (initState 90 30) ⟨.num 3, .num 4, true, .num 2⟩).overallQualityPoints
        = some 96 ∧
    (step (initState 90 30) ⟨.num 3, .num 4, true, .num 2⟩).overallCredits = 30 ∧
    (([⟨.num 3, .num 4, false, .empty⟩] : List Row).foldl step
        (initState 90 30)).overallCredits = 33 := by
  have h := C2_repeat_adjustment (initState 90 30) 90 0 3 4 2
      [⟨.num 3, .num 4, false, .empty⟩] rfl rfl
      (by norm_num)
      (by norm_num [gradeValues, GRADE_MAP])
      (by norm_num [gradeValues, GRADE_MAP])
      (by
        intro r hr
        simp only [List.mem_singleton] at hr
        subst hr
        simp only [goodRow, skippedRow, validCreditsVal, Val.isNum, Val.truthy]
        norm_num)
  refine ⟨h.1.trans ?_, h.2.1.trans ?_, h.2.2.trans ?_⟩ <;>
    norm_num [rowOvCr, skippedRow, Val.truthy, Val.qval, initState]

/-- Counterexample for claim C3: with no entries and the valid baseline
(3.5, 60), `calculate` does signal the no-courses condition, but it reports
no cumulative GPA at all — in particular not the baseline value 3.5. -/
theorem C3_counterexample :
    calculate (.num (7/2)) (.num 60) [] = Outcome.noValidCourses ∧
    Outcome.cgpa (calculate (.num (7/2)) (.num 60) []) ≠ some (some (7/2)) := by
  have h : calculate (.num (7/2)) (.num 60) [] = Outcome.noValidCourses := by
    norm_num [calculate, initState, parseOr0, Val.parseFloat]
  refine ⟨h, ?_⟩
  rw [h]
  simp [Outcome.cgpa]

/-- Claim C3 as amended: when every entry is skipped (or there are none) and
the baseline is valid, `calculate` signals the no-courses condition instead of
returning a semester GPA of 0 or NaN, and reports no cumulative GPA at all
(rather than reporting the baseline GPA). -/
theorem C3_no_courses_signal (gpaV crV : Val) (rows : List Row)
    (hgpa0 : 0 ≤ parseOr0 gpaV) (hgpa4 : parseOr0 gpaV ≤ 4)
    (hcr0 : 0 ≤ parseOr0 crV)
    (hsk : ∀ r ∈ rows, skippedRow r = true) :
    calculate gpaV crV rows = Outcome.noValidCourses ∧
    Outcome.cgpa (calculate gpaV crV rows) = none := by
  have hgood : ∀ r ∈ rows, goodRow r = true := fun r hr => by
    simp [goodRow, hsk r hr]
  have hb1 : ¬(4 < parseOr0 gpaV ∨ parseOr0 gpaV < 0) := by
    push_neg
    exact ⟨hgpa4, hgpa0⟩
  have hb2 : ¬(parseOr0 crV < 0) := not_lt.mpr hcr0
  have hany : (rows.any fun r => !skippedRow r) = false := by
    simp only [List.any_eq_false]
    intro x hx
    simp [hsk x hx]
  have hcalc : calculate gpaV crV rows = Outcome.noValidCourses := by
    simp only [calculate]
    rw [if_neg hb1, if_neg hb2,
      foldl_good rows _ (parseOr0 gpaV * parseOr0 crV) 0 hgood rfl rfl]
    simp [hany, initState]
  exact ⟨hcalc, by rw [hcalc]; simp [Outcome.cgpa]⟩

/-- Witness for C3: one fully empty row with the baseline (3.5, 60). -/
theorem C3_witness :
    calculate (.num (7/2)) (.num 60) [⟨.empty, .empty, false, .empty⟩] =
      Outcome.noValidCourses ∧
    Outcome.cgpa
      (calculate (.num (7/2)) (.num 60) [⟨.empty, .empty, false, .empty⟩]) =
      none :=
  C3_no_courses_signal (.num (7/2)) (.num 60) [⟨.empty, .empty, false, .empty⟩]
    (by norm_num [parseOr0, Val.parseFloat])
    (by norm_num [parseOr0, Val.parseFloat])
    (by norm_num [parseOr0, Val.parseFloat])
    (by
      intro r hr
      simp only [List.mem_singleton] at hr
      subst hr
      simp [skippedRow, Val.truthy])

/-- Claim C4: with a valid baseline, an input containing at least one faulted
entry (incomplete, credits out of range, or repeat without previous grade)
makes `calculate` end in the errors outcome: no numeric result is produced
from the remaining valid entries. -/
theorem C4_faults_block_result (gpaV crV : Val) (rows : List Row)
    (hgpa0 : 0 ≤ parseOr0 gpaV) (hgpa4 : parseOr0 gpaV ≤ 4)
    (hcr0 : 0 ≤ parseOr0 crV)
    (hf : rows.any faultedRow = true) :
    calculate gpaV crV rows = Outcome.errors := by
  have hb1 : ¬(4 < parseOr0 gpaV ∨ parseOr0 gpaV < 0) := by
    push_neg
    exact ⟨hgpa4, hgpa0⟩
  have hb2 : ¬(parseOr0 crV < 0) := not_lt.mpr hcr0
  have herr : (rows.foldl step
      (initState (parseOr0 gpaV * parseOr0 crV) (parseOr0 crV))).hasErrors
      = true := by
    rw [foldl_hasErrors]
    simp [hf, initState]
  simp only [calculate]
  rw [if_neg hb1, if_neg hb2]
  simp [herr]

/-- Witness for C4 at the spec's scenario: entries {3 credits, grade points
3.0} and {empty credits, grade points 4.0} — the second is incomplete, so the
whole calculation ends in the errors outcome. -/
theorem C4_witness :
    calculate .empty .empty
      [⟨.num 3, .num 3, false, .empty⟩, ⟨.empty, .num 4, false, .empty⟩] =
      Outcome.errors :=
  C4_faults_block_result .empty .empty
    [⟨.num 3, .num 3, false, .empty⟩, ⟨.empty, .num 4, false, .empty⟩]
    (by norm_num [parseOr0, Val.parseFloat])
    (by norm_num [parseOr0, Val.parseFloat])
    (by norm_num [parseOr0, Val.parseFloat])
    (by simp [faultedRow, skippedRow, Val.truthy])

/-- Counterexample for claim C5: an entry whose grade value 5 is not a
quality-point value of the grade scale produces no fault at all — `calculate`
returns a numeric result whose sums include the unknown value (semester GPA 5,
cumulative GPA (90+15)/33 = 35/11). -/
theorem C5_counterexample :
    (5:ℚ) ∉ gradeValues ∧
    calculate (.num 3) (.num 30) [⟨.num 3, .num 5, false, .empty⟩] =
      Outcome.ok (some 5) (some (35/11)) 33 := by
  constructor
  · norm_num [gradeValues, GRADE_MAP]
  · norm_num [calculate, step, initState, jadd, jsub, jmul, jdivq, parseOr0,
      Val.parseFloat, Val.truthy, List.foldl]

/-- Claim C5 as amended: the loop body performs no membership check of the
grade value against the grade scale — a complete entry with valid credits and
any numeric grade value g (known or not) contributes credits × g to both
quality-point sums, adds its credits, and raises no fault. -/
theorem C5_unknown_grade_propagates (s : CalcState) (oq sq c g : ℚ) (old : Val)
    (hoq : s.overallQualityPoints = some oq)
    (hsq : s.semesterQualityPoints = some sq)
    (hc : 0 < c ∧ c ≤ 4) :
    step s ⟨.num c, .num g, false, old⟩ =
      { overallQualityPoints := some (oq + c * g),
        overallCredits := s.overallCredits + c,
        semesterQualityPoints := some (sq + c * g),
        semesterCredits := s.semesterCredits + c,
        hasErrors := s.hasErrors,
        hasValidCourses := true } := by
  have hgood : goodRow ⟨.num c, .num g, false, old⟩ = true := by
    simp [goodRow, validCreditsVal, Val.isNum, hc]
  rw [step_good s _ oq sq hoq hsq hgood]
  simp [rowOvQP, rowOvCr, rowSemQP, rowSemCr, skippedRow, Val.truthy, Val.qval]

/-- Witness for C5: grade value 5 (absent from the scale) flows into the sums
of a fresh state with no error raised. -/
theorem C5_witness :
    step (initState 0 0) ⟨.num 3, .num 5, false, .empty⟩ =
      { overallQualityPoints := some 15, overallCredits := 3,
        semesterQualityPoints := some 15, semesterCredits := 3,
        hasErrors := false, hasValidCourses := true } := by
  have h := C5_unknown_grade_propagates (initState 0 0) 0 0 3 5 .empty rfl rfl
    (by norm_num)
  rw [h]
  norm_num [initState]

/-- Counterexample for claim C6: credits 0.5 lie below the configured bound
1–4, yet the entry is not faulted and `calculate` returns a numeric result
including it (0.5 credits at grade points 4.0 give GPA 4.0). -/
theorem C6_counterexample :
    faultedRow ⟨.num (1/2), .num 4, false, .empty⟩ = false ∧
    calculate .empty .empty [⟨.num (1/2), .num 4, false, .empty⟩] =
      Outcome.ok (some 4) (some 4) (1/2) := by
  constructor
  · norm_num [faultedRow, skippedRow, Val.truthy, Val.parseFloat]
  · norm_num [calculate, step, initState, jadd, jsub, jmul, jdivq, parseOr0,
      Val.parseFloat, Val.truthy, List.foldl]

/-- Claim C6 as amended: for a complete non-repeat entry the loop body raises
the credits fault exactly when the credits are non-positive or greater than 4
(non-numeric credits always fault); the lower bound is strict positivity, not
1, so the fractional value 0.5 raises no fault. -/
theorem C6_credits_fault_boundary (s : CalcState) (c g : ℚ) (old : Val) :
    ((step s ⟨.num c, .num g, false, old⟩).hasErrors
        = (s.hasErrors || decide (c ≤ 0 ∨ 4 < c))) ∧
    ((step s ⟨.nan, .num g, false, old⟩).hasErrors = true) ∧
    ((step s ⟨.num (1/2), .num g, false, old⟩).hasErrors = s.hasErrors) := by
  refine ⟨?_, ?_, ?_⟩
  · rw [step_hasErrors]
    have : faultedRow ⟨.num c, .num g, false, old⟩ = decide (c ≤ 0 ∨ 4 < c) := by
      by_cases h : c ≤ 0 ∨ 4 < c <;>
        simp [faultedRow, skippedRow, Val.truthy, Val.parseFloat, h]
    rw [this]
  · rw [step_hasErrors]
    simp [faultedRow, skippedRow, Val.truthy, Val.parseFloat]
  · rw [step_hasErrors]
    have : faultedRow ⟨.num (1/2), .num g, false, old⟩ = false := by
      norm_num [faultedRow, skippedRow, Val.truthy, Val.parseFloat]
    rw [this]
    simp

/-- Counterexample for claim C7: a valid input whose only course is a no-op
repeat (grade points 3.0 replacing 3.0, baseline 3.0 over 30 credits) yields
cumulative GPA 3.0, while the same input with that entry absent yields no
cumulative GPA at all (no-courses condition), not an equal one. -/
theorem C7_counterexample :
    Outcome.cgpa
      (calculate (.num 3) (.num 30) [⟨.num 3, .num 3, true, .num 3⟩]) =
      some (some 3) ∧
    Outcome.cgpa (calculate (.num 3) (.num 30) []) = none ∧
    Outcome.cgpa
      (calculate (.num 3) (.num 30) [⟨.num 3, .num 3, true, .num 3⟩]) ≠
      Outcome.cgpa (calculate (.num 3) (.num 30) []) := by
  have h1 : Outcome.cgpa
      (calculate (.num 3) (.num 30) [⟨.num 3, .num 3, true, .num 3⟩]) =
      some (some 3) := by
    norm_num [calculate, step, initState, jadd, jsub, jmul, jdivq, parseOr0,
      Val.parseFloat, Val.truthy, Outcome.cgpa, List.foldl]
  have h2 : Outcome.cgpa (calculate (.num 3) (.num 30) []) = none := by
    norm_num [calculate, step, initState, jadd, jsub, jmul, jdivq, parseOr0,
      Val.parseFloat, Val.truthy, Outcome.cgpa, List.foldl]
  refine ⟨h1, h2, ?_⟩
  rw [h1, h2]
  simp

/-- Claim C7 as amended: replacing a repeated course's old grade with an
identical new grade leaves the cumulative GPA unchanged, provided the input
with that entry removed still contains at least one non-skipped (valid)
course, so that both invocations reach a numeric result. -/
theorem C7_noop_repeat (gpaV crV : Val) (before after : List Row) (c g : ℚ)
    (hgpa0 : 0 ≤ parseOr0 gpaV) (hgpa4 : parseOr0 gpaV ≤ 4)
    (hcr0 : 0 ≤ parseOr0 crV)
    (hc : 0 < c ∧ c ≤ 4) (hg : g ∈ gradeValues)
    (hall : ∀ x ∈ before ++ after, goodRow x = true)
    (hsome : ((before ++ after).any fun x => !skippedRow x) = true) :
    Outcome.cgpa
      (calculate gpaV crV (before ++ ⟨.num c, .num g, true, .num g⟩ :: after)) =
    Outcome.cgpa (calculate gpaV crV (before ++ after)) := by
  have hgoodr : goodRow ⟨.num c, .num g, true, .num g⟩ = true := by
    simp [goodRow, validCreditsVal, Val.isNum, hc]
  have hall1 : ∀ x ∈ before ++ ⟨.num c, .num g, true, .num g⟩ :: after,
      goodRow x = true := by
    intro x hx
    rcases List.mem_append.mp hx with h | h
    · exact hall x (List.mem_append.mpr (Or.inl h))
    · rcases List.mem_cons.mp h with rfl | h
      · exact hgoodr
      · exact hall x (List.mem_append.mpr (Or.inr h))
  have hb1 : ¬(4 < parseOr0 gpaV ∨ parseOr0 gpaV < 0) := by
    push_neg
    exact ⟨hgpa4, hgpa0⟩
  have hb2 : ¬(parseOr0 crV < 0) := not_lt.mpr hcr0
  have hzero : rowOvQP ⟨.num c, .num g, true, .num g⟩ = 0 := by
    simp [rowOvQP, skippedRow, Val.truthy, Val.qval]
  have hzero2 : rowOvCr ⟨.num c, .num g, true, .num g⟩ = 0 := by
    simp [rowOvCr, skippedRow, Val.truthy]
  simp only [calculate]
  rw [if_neg hb1, if_neg hb2, if_neg hb1, if_neg hb2,
    foldl_good _ _ (parseOr0 gpaV * parseOr0 crV) 0 hall1 rfl rfl,
    foldl_good _ _ (parseOr0 gpaV * parseOr0 crV) 0 hall rfl rfl]
  have hpr : (!skippedRow (⟨.num c, .num g, true, .num g⟩ : Row)) = true := by
    simp [skippedRow, Val.truthy]
  have hany3 : ((before.any fun x => !skippedRow x) ||
      (after.any fun x => !skippedRow x)) = true := by
    simpa [List.any_append] using hsome
  simp only [List.map_append, List.sum_append, List.map_cons, List.sum_cons,
    List.any_append, List.any_cons, hzero, hzero2, zero_add, initState,
    Bool.false_or, hpr, hany3, Bool.true_or, Bool.or_true]
  simp [Outcome.cgpa]

/-- Witness for C7: baseline 3.0 over 30 credits, a no-op repeat (grade
points 3.0 over 3.0) next to a valid 3-credit course at grade points 4.0:
with and without the repeat entry the cumulative GPA agrees. -/
theorem C7_witness :
    Outcome.cgpa (calculate (.num 3) (.num 30)
      [⟨.num 3, .num 3, true, .num 3⟩, ⟨.num 3, .num 4, false, .empty⟩]) =
    Outcome.cgpa (calculate (.num 3) (.num 30)
      [⟨.num 3, .num 4, false, .empty⟩]) := by
  have h := C7_noop_repeat (.num 3) (.num 30) []
      [⟨.num 3, .num 4, false, .empty⟩] 3 3
      (by norm_num [parseOr0, Val.parseFloat])
      (by norm_num [parseOr0, Val.parseFloat])
      (by norm_num [parseOr0, Val.parseFloat])
      (by norm_num)
      (by norm_num [gradeValues, GRADE_MAP])
      (by
        intro x hx
        simp only [List.nil_append, List.mem_singleton] at hx
        subst hx
        simp only [goodRow, skippedRow, validCreditsVal, Val.isNum, Val.truthy]
        norm_num)
      (by simp [skippedRow, Val.truthy])
  simpa using h

/-- Claim C8: a fault-free input — baseline GPA 1.0 over 3 credits and a
single 3-credit repeat from grade points 4.0 (A) down to 0.0 (F), both genuine
scale values — makes `calculate` return cumulative GPA −3, strictly below 0:
the result is not clamped to [0, 4]. -/
theorem C8_unclamped_negative_cgpa :
    calculate (.num 1) (.num 3) [⟨.num 3, .num 0, true, .num 4⟩] =
      Outcome.ok (some 0) (some (-3)) 3 ∧
    faultedRow ⟨.num 3, .num 0, true, .num 4⟩ = false ∧
    (0:ℚ) ∈ gradeValues ∧ (4:ℚ) ∈ gradeValues ∧ (-3:ℚ) < 0 := by
  refine ⟨?_, ?_, ?_, ?_, by norm_num⟩
  · norm_num [calculate, step, initState, jadd, jsub, jmul, jdivq, parseOr0,
      Val.parseFloat, Val.truthy, List.foldl]
  · norm_num [faultedRow, skippedRow, Val.truthy, Val.parseFloat]
  · norm_num [gradeValues, GRADE_MAP]
  · norm_num [gradeValues, GRADE_MAP]

/-- Claim C9: an empty or non-numeric baseline field is replaced by 0 (so it
never aborts the calculation), and `calculate` ends in the invalid-baseline
outcome exactly when the parsed prior GPA lies outside [0, 4] or the parsed
prior credits are negative. -/
theorem C9_baseline_defaults (gpaV crV : Val) (rows : List Row) :
    (gpaV.parseFloat = none →
      calculate gpaV crV rows = calculate (.num 0) crV rows) ∧
    (crV.parseFloat = none →
      calculate gpaV crV rows = calculate gpaV (.num 0) rows) ∧
    (calculate gpaV crV rows = Outcome.invalidBaseline ↔
      (4 < parseOr0 gpaV ∨ parseOr0 gpaV < 0 ∨ parseOr0 crV < 0)) := by
  refine ⟨?_, ?_, ?_⟩
  · intro h
    have heq : parseOr0 gpaV = parseOr0 (.num 0) := by
      simp only [parseOr0, h]
      rfl
    simp only [calculate, heq]
  · intro h
    have heq : parseOr0 crV = parseOr0 (.num 0) := by
      simp only [parseOr0, h]
      rfl
    simp only [calculate, heq]
  · constructor
    · intro h
      by_cases h1 : 4 < parseOr0 gpaV ∨ parseOr0 gpaV < 0
      · tauto
      · by_cases h2 : parseOr0 crV < 0
        · tauto
        · exfalso
          simp only [calculate] at h
          rw [if_neg h1, if_neg h2] at h
          split at h
          · exact Outcome.noConfusion h
          · split at h
            · exact Outcome.noConfusion h
            · exact Outcome.noConfusion h
    · intro h
      simp only [calculate]
      by_cases h1 : 4 < parseOr0 gpaV ∨ parseOr0 gpaV < 0
      · rw [if_pos h1]
      · rw [if_neg h1]
        have h2 : parseOr0 crV < 0 := by tauto
        rw [if_pos h2]

/-- Witness for C9: an empty prior-GPA field behaves as 0 (no abort), and a
parsed prior GPA of 5 aborts with the invalid-baseline outcome. -/
theorem C9_witness :
    calculate .empty (.num 60) [⟨.num 3, .num 4, false, .empty⟩] =
      calculate (.num 0) (.num 60) [⟨.num 3, .num 4, false, .empty⟩] ∧
    calculate (.num 5) (.num 60) [] = Outcome.invalidBaseline := by
  constructor
  · exact (C9_baseline_defaults .empty (.num 60)
      [⟨.num 3, .num 4, false, .empty⟩]).1 rfl
  · exact (C9_baseline_defaults (.num 5) (.num 60) []).2.2.mpr
      (by norm_num [parseOr0, Val.parseFloat])

/-- Claim C10: the grade scale is the fixed 12-entry `GRADE_MAP` constant in
which both A+ and A map to 4.0, F maps to 0.0, and every quality-point value
lies in [0, 4]. -/
theorem C10_grade_map_shape :
    GRADE_MAP.length = 12 ∧
    GRADE_MAP.lookup "A+" = some 4 ∧
    GRADE_MAP.lookup "A" = some 4 ∧
    GRADE_MAP.lookup "F" = some 0 ∧
    (GRADE_MAP.all fun p => decide (0 ≤ p.2 ∧ p.2 ≤ 4)) = true := by
  refine ⟨by norm_num [GRADE_MAP], rfl, rfl, rfl, by norm_num [GRADE_MAP, List.all]⟩
